import Mathlib

/-!
Shallow embedding of the window-maximizer module (FoundryVTT snap-to-zone
layout manager) and proofs of the specification claims.

Sources embedded:
* `src/scripts/window-state-registry.js` — `WindowStateRegistry`
* `src/scripts/snap-layouter.js` — `calculateAvailableLayouts`,
  `calculateZoneRect`, `SnapLayouter.snapApp` / `restoreApp` / `restoreAll`,
  the `PerformanceTracker` counters, and `show` / `hide`
* `src/scripts/main.js` — the AppV2 drag-tracking pointer-move handler and
  the adaptive poll of `setupAppV2DragTracking`

Modelling conventions: JS numbers are modelled as `ℚ`; a JS `Map` (and the
per-app `WeakMap`) is an association list with first-occurrence lookup,
in-place replacement on `set` of an existing key and append on `set` of a
fresh key, matching `Map` iteration order; DOM/host side effects
(notifications, CSS classes, header buttons, timers) are outside the model,
and host calls that can fail (`setPosition`, document reopening) are driven
by explicit success flags / oracles.
-/

namespace WindowMaximizer

/-- Geometry `{left, top, width, height}` of a window (`Position` typedef of
`window-state-registry.js`). -/
structure Position where
  left : ℚ
  top : ℚ
  width : ℚ
  height : ℚ
  deriving DecidableEq, Repr

/-- `{layoutId, zoneId}` (`ZoneInfo` typedef). -/
structure ZoneInfo where
  layoutId : String
  zoneId : String
  deriving DecidableEq, Repr

/-- `{uuid, documentName}` (`DocumentInfo` typedef), used to reopen closed
windows. -/
structure DocumentInfo where
  uuid : String
  documentName : String
  deriving DecidableEq, Repr

/-- A snapped window's record (`WindowState` typedef). -/
structure WindowState where
  appKey : String
  appClass : String
  originalPosition : Position
  zoneInfo : ZoneInfo
  documentInfo : Option DocumentInfo
  snappedAt : ℕ
  isOpen : Bool
  deriving DecidableEq, Repr

/-- The document object reachable from an application (`app.document ??
app.object`); its `uuid` / `documentName` properties may be absent (a falsy
value is modelled as `none`). -/
structure DocRef where
  uuid : Option String
  documentName : Option String
  deriving DecidableEq, Repr

/-- A host application window, reduced to the surface the embedded code
reads: `oid` stands for JS object identity (the `WeakMap` key), `appId` /
`id` / `ctorName` feed `getAppKey`, `hasPosition` / `hasSetPosition` model
the truthiness checks `app.position` and `typeof app.setPosition ===
'function'`. -/
structure App where
  oid : ℕ
  appId : Option String
  id : Option String
  ctorName : String
  document : Option DocRef
  hasPosition : Bool
  hasSetPosition : Bool
  deriving DecidableEq, Repr

/-! ### Association-list model of a JS `Map` / `WeakMap` -/

/-- `Map.get`: value stored under `k`, if any. -/
def alistGet {α β : Type} [BEq α] (m : List (α × β)) (k : α) : Option β :=
  (m.find? (fun p => p.1 == k)).map Prod.snd

/-- `Map.set`: replace the entry for `k` in place, or append a fresh entry.
(With the unique keys `set` maintains this coincides with JS `Map.set`,
iteration order included.) -/
def alistSet {α β : Type} [BEq α] : List (α × β) → α → β → List (α × β)
  | [], k, v => [(k, v)]
  | p :: rest, k, v =>
      if p.1 == k then (k, v) :: rest else p :: alistSet rest k v

/-- `Map.delete`: drop every entry stored under `k`. -/
def alistDelete {α β : Type} [BEq α] (m : List (α × β)) (k : α) : List (α × β) :=
  m.filter (fun p => !(p.1 == k))

/-! ### `WindowStateRegistry` (src/scripts/window-state-registry.js) -/

/-- The registry's `states` map, keyed by app key. -/
abbrev Registry := List (String × WindowState)

/-- `getAppKey`: `String(app.appId ?? app.id ?? app.constructor.name)`. -/
def getAppKey (app : App) : String :=
  match app.appId with
  | some s => s
  | none =>
      match app.id with
      | some s => s
      | none => app.ctorName

/-- `extractDocumentInfo`: document info `{uuid, documentName}` when the
app's document exposes both, else `null`. -/
def extractDocumentInfo (app : App) : Option DocumentInfo :=
  match app.document with
  | none => none
  | some d =>
      match d.uuid, d.documentName with
      | some u, some n => some { uuid := u, documentName := n }
      | _, _ => none

/-- `registerSnap`: build a fresh `WindowState` and `states.set` it under the
app's key. Note the source has no existence check here: `set` replaces any
record already stored for the key. -/
def registerSnap (reg : Registry) (app : App) (originalPosition : Position)
    (zoneInfo : ZoneInfo) (now : ℕ) : Registry :=
  let key := getAppKey app
  alistSet reg key
    { appKey := key
      appClass := app.ctorName
      originalPosition := originalPosition
      zoneInfo := zoneInfo
      documentInfo := extractDocumentInfo app
      snappedAt := now
      isOpen := true }

/-- `getState`: `states.get(getAppKey(app))`. -/
def getState (reg : Registry) (app : App) : Option WindowState :=
  alistGet reg (getAppKey app)

/-- `markClosed`: flip `isOpen` to `false` when a record exists (the source
mutates the stored object in place, i.e. replaces it). -/
def markClosed (reg : Registry) (app : App) : Registry :=
  let key := getAppKey app
  match alistGet reg key with
  | some st => alistSet reg key { st with isOpen := false }
  | none => reg

/-- `markOpen`: flip `isOpen` to `true` when a record exists. -/
def markOpen (reg : Registry) (app : App) : Registry :=
  let key := getAppKey app
  match alistGet reg key with
  | some st => alistSet reg key { st with isOpen := true }
  | none => reg

/-- `removeState`: `states.delete(getAppKey(app))`. -/
def removeState (reg : Registry) (app : App) : Registry :=
  alistDelete reg (getAppKey app)

/-- `getAllStatesArray`: `Array.from(states.values())`. -/
def getAllStatesArray (reg : Registry) : List WindowState :=
  reg.map Prod.snd

/-- `getSnappedCount`: `states.size`. -/
def getSnappedCount (reg : Registry) : ℕ := reg.length

/-- `hasSnappedWindows`: `states.size > 0`. -/
def hasSnappedWindows (reg : Registry) : Bool := reg.length > 0

/-- `clearAll`: `states.clear()`. -/
def clearAll (_reg : Registry) : Registry := []

/-! ### Layout generation (src/scripts/snap-layouter.js, `calculateAvailableLayouts`) -/

/-- One grid cell of a layout (`zones` entries; `colSpan` / `rowSpan` are
absent on every zone the source builds, and a stored `0` would be falsy, so
both default to `1` through `effSpan`). -/
structure Zone where
  id : String
  col : ℕ
  row : ℕ
  colSpan : Option ℕ
  rowSpan : Option ℕ
  deriving DecidableEq, Repr

/-- A generated layout `{id, label, cols, rows, zones}` (the CSS `class`
field is dropped: it never feeds back into the logic). -/
structure Layout where
  id : String
  label : String
  cols : ℕ
  rows : ℕ
  zones : List Zone
  deriving DecidableEq, Repr

/-- `MIN_ZONE_WIDTH` (px). -/
def MIN_ZONE_WIDTH : ℚ := 300

/-- `MIN_ZONE_HEIGHT` (px). -/
def MIN_ZONE_HEIGHT : ℚ := 200

/-- Shorthand for a span-free zone at grid cell `(col, row)`. -/
def mkZone (id : String) (col row : ℕ) : Zone :=
  { id := id, col := col, row := row, colSpan := none, rowSpan := none }

/-- The always-present full-screen layout. -/
def fullLayout : Layout :=
  { id := "full", label := "Full Screen", cols := 1, rows := 1
    zones := [mkZone "full" 0 0] }

/-- Layout `split-2`. -/
def split2Layout : Layout :=
  { id := "split-2", label := "2 Columns", cols := 2, rows := 1
    zones := [mkZone "left" 0 0, mkZone "right" 1 0] }

/-- Layout `split-3`. -/
def split3Layout : Layout :=
  { id := "split-3", label := "3 Columns", cols := 3, rows := 1
    zones := [mkZone "left" 0 0, mkZone "center" 1 0, mkZone "right" 2 0] }

/-- Layout `split-4`. -/
def split4Layout : Layout :=
  { id := "split-4", label := "4 Columns", cols := 4, rows := 1
    zones := [mkZone "col-0" 0 0, mkZone "col-1" 1 0,
              mkZone "col-2" 2 0, mkZone "col-3" 3 0] }

/-- Layout `split-6`. -/
def split6Layout : Layout :=
  { id := "split-6", label := "6 Columns", cols := 6, rows := 1
    zones := [mkZone "col-0" 0 0, mkZone "col-1" 1 0, mkZone "col-2" 2 0,
              mkZone "col-3" 3 0, mkZone "col-4" 4 0, mkZone "col-5" 5 0] }

/-- Layout `rows-2`. -/
def rows2Layout : Layout :=
  { id := "rows-2", label := "2 Rows", cols := 1, rows := 2
    zones := [mkZone "top" 0 0, mkZone "bottom" 0 1] }

/-- Layout `grid-2x2`. -/
def grid2x2Layout : Layout :=
  { id := "grid-2x2", label := "2×2 Grid", cols := 2, rows := 2
    zones := [mkZone "tl" 0 0, mkZone "tr" 1 0,
              mkZone "bl" 0 1, mkZone "br" 1 1] }

/-- Layout `grid-4x2`. -/
def grid4x2Layout : Layout :=
  { id := "grid-4x2", label := "4×2 Grid", cols := 4, rows := 2
    zones := [mkZone "r0c0" 0 0, mkZone "r0c1" 1 0, mkZone "r0c2" 2 0,
              mkZone "r0c3" 3 0, mkZone "r1c0" 0 1, mkZone "r1c1" 1 1,
              mkZone "r1c2" 2 1, mkZone "r1c3" 3 1] }

/-- Layout `rows-3`. -/
def rows3Layout : Layout :=
  { id := "rows-3", label := "3 Rows", cols := 1, rows := 3
    zones := [mkZone "top" 0 0, mkZone "middle" 0 1, mkZone "bottom" 0 2] }

/-- Layout `grid-2x3`. -/
def grid2x3Layout : Layout :=
  { id := "grid-2x3", label := "2×3 Grid", cols := 2, rows := 3
    zones := [mkZone "r0c0" 0 0, mkZone "r0c1" 1 0, mkZone "r1c0" 0 1,
              mkZone "r1c1" 1 1, mkZone "r2c0" 0 2, mkZone "r2c1" 1 2] }

/-- Layout `grid-3x3`. -/
def grid3x3Layout : Layout :=
  { id := "grid-3x3", label := "3×3 Grid", cols := 3, rows := 3
    zones := [mkZone "r0c0" 0 0, mkZone "r0c1" 1 0, mkZone "r0c2" 2 0,
              mkZone "r1c0" 0 1, mkZone "r1c1" 1 1, mkZone "r1c2" 2 1,
              mkZone "r2c0" 0 2, mkZone "r2c1" 1 2, mkZone "r2c2" 2 2] }

/-- `calculateAvailableLayouts`: the layouts that fit a `sw × sh` viewport.
`maxCols = Math.floor(screenWidth / MIN_ZONE_WIDTH)`, `maxRows =
Math.floor(screenHeight / MIN_ZONE_HEIGHT)`; each conditional `push` of the
source becomes a conditional singleton. -/
def calculateAvailableLayouts (sw sh : ℚ) : List Layout :=
  let maxCols : ℤ := ⌊sw / MIN_ZONE_WIDTH⌋
  let maxRows : ℤ := ⌊sh / MIN_ZONE_HEIGHT⌋
  [fullLayout]
    ++ (if maxCols ≥ 2 then [split2Layout] else [])
    ++ (if sw ≥ 1400 ∧ maxCols ≥ 3 then [split3Layout] else [])
    ++ (if sw ≥ 2560 ∧ maxCols ≥ 4 then [split4Layout] else [])
    ++ (if sw ≥ 3840 ∧ maxCols ≥ 6 then [split6Layout] else [])
    ++ (if maxRows ≥ 2 then [rows2Layout] else [])
    ++ (if maxCols ≥ 2 ∧ maxRows ≥ 2 then [grid2x2Layout] else [])
    ++ (if sw ≥ 3200 ∧ maxCols ≥ 4 ∧ maxRows ≥ 2 then [grid4x2Layout] else [])
    ++ (if sh ≥ 1400 ∧ maxRows ≥ 3 then [rows3Layout] else [])
    ++ (if sh ≥ 1400 ∧ maxCols ≥ 2 ∧ maxRows ≥ 3 then [grid2x3Layout] else [])
    ++ (if sw ≥ 1400 ∧ sh ≥ 1400 ∧ maxCols ≥ 3 ∧ maxRows ≥ 3
        then [grid3x3Layout] else [])

/-! ### Zone rectangles (`calculateZoneRect`) -/

/-- A target rectangle `{x, y, w, h}`. -/
structure Rect where
  x : ℚ
  y : ℚ
  w : ℚ
  h : ℚ
  deriving DecidableEq, Repr

/-- `zone.colSpan || 1`: a missing (or falsy `0`) span counts as `1`. -/
def effSpan (s : Option ℕ) : ℕ :=
  match s with
  | some n => if n = 0 then 1 else n
  | none => 1

/-- The rectangle of one zone of a `cols × rows` layout on a `sw × sh`
viewport (body of `calculateZoneRect` after the zone is found):
`colWidth = screenWidth / layout.cols`, `rowHeight = screenHeight /
layout.rows`, rect `= {x: col*colWidth, y: row*rowHeight, w:
colWidth*colSpan, h: rowHeight*rowSpan}`. -/
def zoneRect (cols rows : ℕ) (z : Zone) (sw sh : ℚ) : Rect :=
  let colWidth := sw / cols
  let rowHeight := sh / rows
  { x := z.col * colWidth
    y := z.row * rowHeight
    w := colWidth * effSpan z.colSpan
    h := rowHeight * effSpan z.rowSpan }

/-- `calculateZoneRect(layoutId, zoneId)` against the layout list
`this.layouts` and the current viewport: unknown layout id falls back to the
whole viewport for `'full'` and to `null` otherwise; an unknown zone id
yields `null`. -/
def calculateZoneRect (layouts : List Layout) (layoutId zoneId : String)
    (sw sh : ℚ) : Option Rect :=
  match layouts.find? (fun l => l.id == layoutId) with
  | none =>
      if layoutId == "full" then some { x := 0, y := 0, w := sw, h := sh }
      else none
  | some layout =>
      match layout.zones.find? (fun z => z.id == zoneId) with
      | none => none
      | some zone => some (zoneRect layout.cols layout.rows zone sw sh)

/-! ### `PerformanceTracker` counters and the `SnapLayouter` state

The tracker's `timings` map and `lastReset` timestamp only feed the reported
durations/uptime, never the counters the spec talks about; they are left out
of the state. -/

/-- The `metrics` counters of `PerformanceTracker`. -/
structure Metrics where
  dragCount : ℕ
  snapCount : ℕ
  restoreCount : ℕ
  overlayShowCount : ℕ
  totalDragTime : ℚ
  averageDragTime : ℚ
  deriving DecidableEq, Repr

/-- `recordSnap`. -/
def recordSnap (m : Metrics) : Metrics := { m with snapCount := m.snapCount + 1 }

/-- `recordRestore`. -/
def recordRestore (m : Metrics) : Metrics :=
  { m with restoreCount := m.restoreCount + 1 }

/-- `recordOverlayShow`. -/
def recordOverlayShow (m : Metrics) : Metrics :=
  { m with overlayShowCount := m.overlayShowCount + 1 }

/-- The per-app value of `SnapLayouter.appStateMap` (a `WeakMap`). -/
structure AppSnapState where
  originalPosition : Position
  zoneInfo : ZoneInfo
  deriving DecidableEq, Repr

/-- The mutable state a `SnapLayouter` instance owns, together with the one
piece of host state the claims observe: `winPos` maps each window (by object
identity `oid`) to its current geometry, read through `app.position` and
written through `app.setPosition`. DOM pieces (overlay element, highlight,
header buttons) are outside the model. -/
structure World where
  registry : Registry
  appStateMap : List (ℕ × AppSnapState)
  metrics : Metrics
  activeApp : Option ℕ
  activeZone : Option ZoneInfo
  winPos : ℕ → Position

/-- `show(app)` (named `showOverlay` here; `show` is a Lean keyword): set the
active-app pointer and record the overlay-show metric. The deferred
under-cursor zone activation runs through a DOM hit test and a timer and is
not modelled. -/
def showOverlay (w : World) (appOid : ℕ) : World :=
  { w with activeApp := some appOid
           metrics := recordOverlayShow w.metrics }

/-- `deactivateZone()`: clear the active zone (highlight DOM updates are
outside the model). -/
def deactivateZone (w : World) : World :=
  { w with activeZone := none }

/-- `activateZone(layoutId, zoneId)`: set the active zone (highlight DOM
updates are outside the model). -/
def activateZone (w : World) (zi : ZoneInfo) : World :=
  { w with activeZone := some zi }

/-- `hide()`: deactivate the overlay, clear the zone highlight, clear the
active-app pointer. -/
def hideOverlay (w : World) : World :=
  { (deactivateZone w) with activeApp := none }

/-- `MIN_VIEWPORT_WIDTH`. -/
def MIN_VIEWPORT_WIDTH : ℚ := 800

/-- `MIN_VIEWPORT_HEIGHT`. -/
def MIN_VIEWPORT_HEIGHT : ℚ := 600

/-- The in-place clamp of the target rect in `snapApp`: the origin is clamped
into `[0, viewport − 100]` first, then the extent is cut to what remains of
the viewport from the clamped origin. -/
def clampRect (r : Rect) (sw sh : ℚ) : Rect :=
  let x := max 0 (min r.x (sw - 100))
  let y := max 0 (min r.y (sh - 100))
  { x := x, y := y, w := min r.w (sw - x), h := min r.h (sh - y) }

/-- `snapApp(app, rect, zoneInfo)` at viewport `sw × sh`; `now` is
`Date.now()` and `setPosOk` tells whether the host's `setPosition` call
succeeds (it throws otherwise). Declines (returning the state unchanged) on
an invalid app or a viewport below the 800×600 minimum; stores the pre-snap
geometry in the `WeakMap` and the registry only when no entry exists yet; on
a `setPosition` failure keeps those records but applies no geometry and
records no snap metric. -/
def snapApp (w : World) (app : App) (rect : Rect) (zoneInfo : ZoneInfo)
    (sw sh : ℚ) (now : ℕ) (setPosOk : Bool) : World :=
  if ¬(app.hasPosition ∧ app.hasSetPosition) then w
  else if sw < MIN_VIEWPORT_WIDTH ∨ sh < MIN_VIEWPORT_HEIGHT then w
  else
    let pos := w.winPos app.oid
    let originalPosition : Position :=
      { left := pos.left, top := pos.top, width := pos.width, height := pos.height }
    let r := clampRect rect sw sh
    let asm :=
      if (alistGet w.appStateMap app.oid).isSome then w.appStateMap
      else alistSet w.appStateMap app.oid
        { originalPosition := originalPosition, zoneInfo := zoneInfo }
    let reg :=
      if (getState w.registry app).isSome then w.registry
      else registerSnap w.registry app originalPosition zoneInfo now
    if setPosOk then
      { w with registry := reg
               appStateMap := asm
               winPos := fun o =>
                 if o = app.oid then
                   { left := r.x, top := r.y, width := r.w, height := r.h }
                 else w.winPos o
               metrics := recordSnap w.metrics }
    else
      { w with registry := reg, appStateMap := asm }

/-- `restoreApp(app)`: declines on an invalid app; otherwise records the
restore metric, applies the `WeakMap`-stored original geometry when an entry
exists (a `setPosition` failure still cleans up), deletes the `WeakMap`
entry, and always removes the registry record. -/
def restoreApp (w : World) (app : App) (setPosOk : Bool) : World :=
  if ¬(app.hasPosition ∧ app.hasSetPosition) then w
  else
    let m := recordRestore w.metrics
    match alistGet w.appStateMap app.oid with
    | some st =>
        { w with metrics := m
                 appStateMap := alistDelete w.appStateMap app.oid
                 winPos :=
                   if setPosOk then
                     fun o => if o = app.oid then st.originalPosition else w.winPos o
                   else w.winPos
                 registry := removeState w.registry app }
    | none =>
        { w with metrics := m, registry := removeState w.registry app }

/-! ### `restoreAll` -/

/-- The host-environment oracles `restoreAll` consults: `findOpen` is
`findOpenApplication` (a scan of the host's live window collections),
`setPosOk` tells whether applying a geometry to the found window succeeds,
and `reopenOk` whether `fromUuid` resolves and the sheet renders. -/
structure RestoreEnv where
  findOpen : String → Option App
  setPosOk : String → Bool
  reopenOk : String → Bool

/-- Summary returned by `restoreAll`. -/
structure RestoreSummary where
  restoredOpen : ℕ
  reopened : ℕ
  skipped : ℕ
  total : ℕ
  deriving DecidableEq, Repr

/-- The `else if (!state.isOpen && state.documentInfo)` reopen path of the
loop body: `reopenDocument` returns `null` without document info or with a
falsy uuid, otherwise succeeds exactly when the host lookup/render does. -/
def reopenBranch (env : RestoreEnv) (w : World) (state : WindowState) :
    ℕ × ℕ × ℕ × World :=
  match state.documentInfo with
  | some di =>
      if di.uuid ≠ "" ∧ env.reopenOk state.appKey then (0, 1, 0, w)
      else (0, 0, 1, w)
  | none => (0, 0, 1, w)

/-- One iteration of the `restoreAll` loop over a stored record, returning
the increments of `(restoredOpen, reopened, skipped)` and the updated
world. -/
def restoreOne (env : RestoreEnv) (w : World) (state : WindowState) :
    ℕ × ℕ × ℕ × World :=
  match env.findOpen state.appKey with
  | some app =>
      if state.isOpen then
        if app.hasSetPosition then
          if env.setPosOk state.appKey then
            (1, 0, 0,
             { w with appStateMap := alistDelete w.appStateMap app.oid
                      winPos := fun o =>
                        if o = app.oid then state.originalPosition else w.winPos o })
          else (0, 0, 1, w)
        else (0, 0, 1, w)
      else reopenBranch env w state
  | none =>
      if state.isOpen then (0, 0, 1, w) else reopenBranch env w state

/-- The `for (const state of states)` loop of `restoreAll`, accumulating the
three counters. -/
def restoreAllLoop (env : RestoreEnv) : List WindowState → World → ℕ × ℕ × ℕ × World
  | [], w => (0, 0, 0, w)
  | st :: rest, w =>
      let r1 := restoreOne env w st
      let r2 := restoreAllLoop env rest r1.2.2.2
      (r1.1 + r2.1, r1.2.1 + r2.2.1, r1.2.2.1 + r2.2.2.1, r2.2.2.2)

/-- `restoreAll()`: snapshot the records, run the loop, unconditionally
`clearAll` the registry, and return the summary. -/
def restoreAll (env : RestoreEnv) (w : World) : RestoreSummary × World :=
  let states := getAllStatesArray w.registry
  let r := restoreAllLoop env states w
  ({ restoredOpen := r.1, reopened := r.2.1, skipped := r.2.2.1
     total := states.length },
   { r.2.2.2 with registry := clearAll r.2.2.2.registry })

/-! ### AppV2 drag tracking (src/scripts/main.js, `setupAppV2DragTracking`)

The closure state of `setupAppV2DragTracking` and the two paths that can
call `show`: the `pointermove` listener and the `adaptivePoll` interval
callback. Timer bookkeeping (interval ids, speed measurement) only decides
*when* a poll tick runs and whether it reschedules instead of hit-testing;
a tick is modelled by the window-top coordinate it reads plus a flag for the
reschedule early-exit. -/

/-- `DRAG_THRESHOLD` (px). -/
def DRAG_THRESHOLD : ℚ := 3

/-- The closure variables of `setupAppV2DragTracking` that the handlers
read/write (`draggingAppV2` by object identity). -/
structure DragState where
  draggingApp : Option ℕ
  isDragging : Bool
  startX : ℚ
  startY : ℚ

/-- One `pointermove` sample. -/
structure PointerSample where
  x : ℚ
  y : ℚ
  deriving DecidableEq, Repr

/-- The `pointermove` listener: no-op without a tracked drag; below the 3px
threshold it returns early, beyond it `isDragging` latches; then
`clientY < 10` with no active app shows the overlay, otherwise with an
active app it hides beyond the 250px band and runs manual zone tracking
within it (`zoneAt` is the DOM hit-test result `findZoneAtPosition` would
return at the sample point). -/
def onPointerMove (s : DragState) (w : World) (e : PointerSample)
    (zoneAt : Option ZoneInfo) : DragState × World :=
  match s.draggingApp with
  | none => (s, w)
  | some oid =>
      if ¬s.isDragging ∧
          ¬(|e.x - s.startX| > DRAG_THRESHOLD ∨ |e.y - s.startY| > DRAG_THRESHOLD) then
        (s, w)
      else
        let s' := { s with isDragging := true }
        if e.y < 10 then
          if w.activeApp = none then (s', showOverlay w oid) else (s', w)
        else if w.activeApp.isSome then
          let w1 := if e.y > 250 then hideOverlay w else w
          let w2 :=
            if e.y ≤ 250 then
              match zoneAt with
              | some zi =>
                  if w1.activeZone = some zi then w1 else activateZone w1 zi
              | none => if w1.activeZone.isSome then deactivateZone w1 else w1
            else w1
          (s', w2)
        else (s', w)

/-- One tick of `adaptivePoll`: exits without a tracked, thresholded drag;
`reschedule` covers the early exits that do not reach the edge test (the
interval-change restart, a non-positive time delta, a missing app element);
otherwise a window top edge above 10px shows the overlay when none is
active. -/
def adaptivePollStep (s : DragState) (w : World) (winTop : ℚ)
    (reschedule : Bool) : World :=
  match s.draggingApp with
  | none => w
  | some oid =>
      if ¬s.isDragging then w
      else if reschedule then w
      else if winTop < 10 then
        if w.activeApp = none then showOverlay w oid else w
      else w

/-- An observable drag-tracking event while a gesture is in flight: a
`pointermove` sample (with its zone hit-test result) or an adaptive-poll
tick. -/
inductive DragEvent where
  | move (e : PointerSample) (zoneAt : Option ZoneInfo)
  | poll (winTop : ℚ) (reschedule : Bool)

/-- Process one drag event. -/
def dragStep (sw : DragState × World) : DragEvent → DragState × World
  | .move e zoneAt => onPointerMove sw.1 sw.2 e zoneAt
  | .poll winTop reschedule => (sw.1, adaptivePollStep sw.1 sw.2 winTop reschedule)

/-- Process a sequence of drag events. -/
def processDragEvents (s : DragState) (w : World) (events : List DragEvent) :
    DragState × World :=
  events.foldl dragStep (s, w)

/-- The pointer-move samples of an event trace all stay within 10px of the
top edge (poll ticks are unconstrained). -/
def MovesBelowTop (events : List DragEvent) : Prop :=
  ∀ ev ∈ events, match ev with
  | .move e _ => e.y < 10
  | .poll _ _ => True

/-- Whether the trace contains at least one pointer-move sample. -/
def hasMove (events : List DragEvent) : Bool :=
  events.any fun ev => match ev with
  | .move _ _ => true
  | .poll _ _ => false

/-! ### Association-list lemmas -/

/-- Looking up the key just stored yields the stored value. -/
theorem alistGet_alistSet_self {α β : Type} [BEq α] [LawfulBEq α]
    (m : List (α × β)) (k : α) (v : β) :
    alistGet (alistSet m k v) k = some v := by
  induction m with
  | nil => simp [alistSet, alistGet]
  | cons p rest ih =>
      by_cases h : p.1 == k
      · simp [alistSet, h, alistGet]
      · simp only [alistSet, h, Bool.false_eq_true, if_false]
        simpa [alistGet, List.find?_cons, h] using ih

/-- Deleting an absent key is the identity. -/
theorem alistDelete_of_get_none {α β : Type} [BEq α]
    (m : List (α × β)) (k : α) (h : alistGet m k = none) :
    alistDelete m k = m := by
  unfold alistGet at h
  rw [Option.map_eq_none'] at h
  rw [List.find?_eq_none] at h
  apply List.filter_eq_self.mpr
  intro p hp
  simpa using h p hp

/-! ### Concrete fixtures for witnesses and counterexamples -/

/-- A host window with a readable position and a working position-setter. -/
def testApp : App :=
  { oid := 0, appId := some "a1", id := none, ctorName := "ActorSheet",
    document := none, hasPosition := true, hasSetPosition := true }

/-- A sample pre-snap geometry. -/
def posA : Position := { left := 10, top := 20, width := 300, height := 400 }

/-- A different sample geometry. -/
def posB : Position := { left := 50, top := 60, width := 700, height := 800 }

/-- A sample zone reference. -/
def zoneLeft : ZoneInfo := { layoutId := "split-2", zoneId := "left" }

/-- All-zero metrics (a fresh `PerformanceTracker`). -/
def metrics0 : Metrics :=
  { dragCount := 0, snapCount := 0, restoreCount := 0, overlayShowCount := 0,
    totalDragTime := 0, averageDragTime := 0 }

/-- A fresh layouter state with `testApp`'s window at `posA`. -/
def testWorld : World :=
  { registry := [], appStateMap := [], metrics := metrics0,
    activeApp := none, activeZone := none, winPos := fun _ => posA }

/-! ### Claims about the registry (C1, C10) -/

/-- Claim C1 (counterexample): calling `registerSnap` a second time for the
same identity with a different geometry does not leave the stored record
unchanged — `states.set` in `registerSnap` overwrites unconditionally, so the
second geometry replaces the first-recorded one. -/
theorem registerSnap_second_call_overwrites :
    (getState (registerSnap (registerSnap [] testApp posA zoneLeft 0)
        testApp posB zoneLeft 1) testApp).map WindowState.originalPosition
      = some posB ∧ posA ≠ posB := by
  decide

/-- Claim C1 (amended): `registerSnap` itself overwrites unconditionally; its
only caller, `snapApp`, invokes it only when `getState` finds no record, so
once a `SnapRecord` exists for an identity every further `snapApp` call — with
any geometry, zone and viewport — leaves the stored record (first-recorded
original geometry included) unchanged. -/
theorem snapApp_preserves_existing_record (w : World) (app : App) (rect : Rect)
    (zi : ZoneInfo) (sw sh : ℚ) (now : ℕ) (ok : Bool) (st0 : WindowState)
    (h : getState w.registry app = some st0) :
    getState (snapApp w app rect zi sw sh now ok).registry app = some st0 := by
  unfold snapApp
  by_cases hA : ¬(app.hasPosition ∧ app.hasSetPosition)
  · rw [if_pos hA]; exact h
  · rw [if_neg hA]
    by_cases hB : sw < MIN_VIEWPORT_WIDTH ∨ sh < MIN_VIEWPORT_HEIGHT
    · rw [if_pos hB]; exact h
    · rw [if_neg hB]
      cases ok <;> simp [h]

/-- Witness for the amended C1 theorem at a concrete already-registered
window. -/
theorem snapApp_preserves_existing_record_witness :
    getState (snapApp { testWorld with registry := registerSnap [] testApp posA zoneLeft 0 }
        testApp { x := 0, y := 0, w := 50, h := 50 } zoneLeft 1920 1080 2 true).registry
        testApp
      = some { appKey := "a1", appClass := "ActorSheet", originalPosition := posA,
               zoneInfo := zoneLeft, documentInfo := none, snappedAt := 0,
               isOpen := true } :=
  snapApp_preserves_existing_record _ testApp _ zoneLeft 1920 1080 2 true _ (by decide)

/-- Claim C10: for an identity with no `SnapRecord`, `markClosed`, `markOpen`
and `removeState` leave the registry's state map unchanged (and, being total
functions exactly as in the source, raise no error). -/
theorem absent_identity_mutators_noop (reg : Registry) (app : App)
    (h : getState reg app = none) :
    markClosed reg app = reg ∧ markOpen reg app = reg ∧ removeState reg app = reg := by
  rw [getState] at h
  refine ⟨?_, ?_, ?_⟩
  · simp [markClosed, h]
  · simp [markOpen, h]
  · exact alistDelete_of_get_none _ _ h

/-- Witness for C10 on a registry holding a record for a different
identity. -/
theorem absent_identity_mutators_noop_witness :
    markClosed (registerSnap [] testApp posA zoneLeft 0)
        { testApp with oid := 1, appId := some "b2" }
      = registerSnap [] testApp posA zoneLeft 0 ∧
    markOpen (registerSnap [] testApp posA zoneLeft 0)
        { testApp with oid := 1, appId := some "b2" }
      = registerSnap [] testApp posA zoneLeft 0 ∧
    removeState (registerSnap [] testApp posA zoneLeft 0)
        { testApp with oid := 1, appId := some "b2" }
      = registerSnap [] testApp posA zoneLeft 0 :=
  absent_identity_mutators_noop _ _ (by decide)

/-! ### Claims about `restoreApp` (C8) and `snapApp` preconditions (C7) -/

/-- Claim C8 (counterexample): `restoreApp` on a valid window with no
`SnapRecord` is not a complete no-op — `performance.recordRestore()` runs
before the record lookup, so the restore metric still increments. -/
theorem restoreApp_no_record_counterexample :
    getState testWorld.registry testApp = none ∧
    (restoreApp testWorld testApp true).metrics ≠ testWorld.metrics ∧
    (restoreApp testWorld testApp true).metrics.restoreCount
      = testWorld.metrics.restoreCount + 1 := by
  refine ⟨by decide, ?_, ?_⟩ <;> simp [restoreApp, testWorld, testApp, metrics0,
    recordRestore, alistGet, Metrics.mk.injEq]

/-- Claim C8 (amended): for a valid window with no `SnapRecord` (and no
per-window `WeakMap` snap state), `restoreApp` leaves the registry, the
per-window snap state and every window geometry unchanged — but it does
increment the restore metric, which is recorded before the lookup. -/
theorem restoreApp_no_record_noop_except_metric (w : World) (app : App)
    (ok : Bool) (hv : app.hasPosition ∧ app.hasSetPosition)
    (hreg : getState w.registry app = none)
    (hwm : alistGet w.appStateMap app.oid = none) :
    (restoreApp w app ok).registry = w.registry ∧
    (restoreApp w app ok).appStateMap = w.appStateMap ∧
    (restoreApp w app ok).winPos = w.winPos ∧
    (restoreApp w app ok).metrics = recordRestore w.metrics := by
  rw [getState] at hreg
  have hdel : removeState w.registry app = w.registry :=
    alistDelete_of_get_none _ _ hreg
  unfold restoreApp
  rw [if_neg (not_not_intro hv)]
  simp [hwm, hdel]

/-- Witness for the amended C8 theorem on a fresh state. -/
theorem restoreApp_no_record_noop_except_metric_witness :
    (restoreApp testWorld testApp true).registry = testWorld.registry ∧
    (restoreApp testWorld testApp true).appStateMap = testWorld.appStateMap ∧
    (restoreApp testWorld testApp true).winPos = testWorld.winPos ∧
    (restoreApp testWorld testApp true).metrics = recordRestore testWorld.metrics :=
  restoreApp_no_record_noop_except_metric testWorld testApp true (by decide)
    (by decide) (by decide)

/-- Claim C7: the 800×600 minimum-viewport gate of `snapApp` is inclusive —
at exactly 800×600 a valid, not-yet-snapped window is snapped (the snap
metric increments and both the registry record and the `WeakMap` entry
appear) — while any smaller viewport, and likewise an invalid window object,
makes `snapApp` return with the whole state (registry, `WeakMap`, metrics,
window geometries) untouched. -/
theorem snapApp_viewport_threshold :
    (∀ (w : World) (app : App) (rect : Rect) (zi : ZoneInfo) (now : ℕ),
        app.hasPosition ∧ app.hasSetPosition →
        getState w.registry app = none →
        alistGet w.appStateMap app.oid = none →
        (snapApp w app rect zi 800 600 now true).metrics.snapCount
            = w.metrics.snapCount + 1 ∧
        getState (snapApp w app rect zi 800 600 now true).registry app
            = some { appKey := getAppKey app, appClass := app.ctorName,
                     originalPosition := w.winPos app.oid, zoneInfo := zi,
                     documentInfo := extractDocumentInfo app, snappedAt := now,
                     isOpen := true } ∧
        alistGet (snapApp w app rect zi 800 600 now true).appStateMap app.oid
            = some { originalPosition := w.winPos app.oid, zoneInfo := zi }) ∧
    (∀ (w : World) (app : App) (rect : Rect) (zi : ZoneInfo) (sw sh : ℚ)
        (now : ℕ) (ok : Bool), sw < 800 ∨ sh < 600 →
        snapApp w app rect zi sw sh now ok = w) ∧
    (∀ (w : World) (app : App) (rect : Rect) (zi : ZoneInfo) (sw sh : ℚ)
        (now : ℕ) (ok : Bool), ¬(app.hasPosition ∧ app.hasSetPosition) →
        snapApp w app rect zi sw sh now ok = w) := by
  refine ⟨?_, ?_, ?_⟩
  · intro w app rect zi now hv hreg hwm
    rw [getState] at hreg
    unfold snapApp
    rw [if_neg (not_not_intro hv),
        if_neg (by norm_num [MIN_VIEWPORT_WIDTH, MIN_VIEWPORT_HEIGHT])]
    simp [hreg, hwm, recordSnap, registerSnap, getState, alistGet_alistSet_self]
  · intro w app rect zi sw sh now ok h
    unfold snapApp
    by_cases hA : ¬(app.hasPosition ∧ app.hasSetPosition)
    · rw [if_pos hA]
    · rw [if_neg hA,
          if_pos (by simpa [MIN_VIEWPORT_WIDTH, MIN_VIEWPORT_HEIGHT] using h)]
  · intro w app rect zi sw sh now ok h
    unfold snapApp
    rw [if_pos h]

/-- Witness for C7: a concrete snap at exactly 800×600 proceeds, and the same
call at 799×600 or with a position-less window is the identity. -/
theorem snapApp_viewport_threshold_witness :
    ((snapApp testWorld testApp { x := 0, y := 0, w := 400, h := 600 } zoneLeft
        800 600 5 true).metrics.snapCount = testWorld.metrics.snapCount + 1 ∧
     getState (snapApp testWorld testApp { x := 0, y := 0, w := 400, h := 600 }
        zoneLeft 800 600 5 true).registry testApp
       = some { appKey := getAppKey testApp, appClass := testApp.ctorName,
                originalPosition := testWorld.winPos testApp.oid,
                zoneInfo := zoneLeft,
                documentInfo := extractDocumentInfo testApp, snappedAt := 5,
                isOpen := true } ∧
     alistGet (snapApp testWorld testApp { x := 0, y := 0, w := 400, h := 600 }
        zoneLeft 800 600 5 true).appStateMap testApp.oid
       = some { originalPosition := testWorld.winPos testApp.oid,
                zoneInfo := zoneLeft }) ∧
    snapApp testWorld testApp { x := 0, y := 0, w := 400, h := 600 } zoneLeft
        799 600 5 true = testWorld ∧
    snapApp testWorld { testApp with hasPosition := false }
        { x := 0, y := 0, w := 400, h := 600 } zoneLeft 800 600 5 true = testWorld :=
  ⟨snapApp_viewport_threshold.1 testWorld testApp _ zoneLeft 5 (by decide)
      (by decide) (by decide),
   snapApp_viewport_threshold.2.1 testWorld testApp _ zoneLeft 799 600 5 true
      (by norm_num),
   snapApp_viewport_threshold.2.2 testWorld _ _ zoneLeft 800 600 5 true
      (by decide)⟩

/-! ### Claim C2: snap sequences followed by a restore -/

/-- The arguments of one `snapApp` call in a re-snap sequence: target rect,
zone, viewport at call time, timestamp, and whether the host position-setter
succeeds. -/
structure SnapCall where
  rect : Rect
  zone : ZoneInfo
  sw : ℚ
  sh : ℚ
  now : ℕ
  setPosOk : Bool

/-- Run a sequence of `snapApp` calls on the same window. -/
def applySnaps (app : App) (w : World) (calls : List SnapCall) : World :=
  calls.foldl
    (fun acc c => snapApp acc app c.rect c.zone c.sw c.sh c.now c.setPosOk) w

/-- The roundtrip invariant for one window: either it was never effectively
snapped (no `WeakMap` entry, geometry still the initial one), or its
`WeakMap` entry holds the initial geometry as `originalPosition`. -/
def SnapInv (app : App) (p0 : Position) (w : World) : Prop :=
  (alistGet w.appStateMap app.oid = none ∧ w.winPos app.oid = p0) ∨
  (∃ zi, alistGet w.appStateMap app.oid
      = some { originalPosition := p0, zoneInfo := zi })

/-- Every single `snapApp` call preserves the roundtrip invariant: a declined
call changes nothing, the first effective call stores the pre-snap geometry,
and later effective calls keep the existing `WeakMap` entry. -/
theorem snapApp_preserves_snapInv (app : App) (p0 : Position) (w : World)
    (rect : Rect) (zi : ZoneInfo) (sw sh : ℚ) (now : ℕ) (ok : Bool)
    (h : SnapInv app p0 w) :
    SnapInv app p0 (snapApp w app rect zi sw sh now ok) := by
  unfold snapApp
  by_cases hA : ¬(app.hasPosition ∧ app.hasSetPosition)
  · rw [if_pos hA]; exact h
  · rw [if_neg hA]
    by_cases hB : sw < MIN_VIEWPORT_WIDTH ∨ sh < MIN_VIEWPORT_HEIGHT
    · rw [if_pos hB]; exact h
    · rw [if_neg hB]
      rcases h with ⟨hnone, hpos⟩ | ⟨zi0, hsome⟩
      · refine Or.inr ⟨zi, ?_⟩
        cases ok <;> simp [SnapInv, hnone, alistGet_alistSet_self, hpos]
      · refine Or.inr ⟨zi0, ?_⟩
        cases ok <;> simp [SnapInv, hsome]

/-- The invariant survives any sequence of `snapApp` calls. -/
theorem applySnaps_snapInv (app : App) (p0 : Position) (calls : List SnapCall) :
    ∀ w : World, SnapInv app p0 w → SnapInv app p0 (applySnaps app w calls) := by
  induction calls with
  | nil => intro w h; exact h
  | cons c rest ih =>
      intro w h
      exact ih _ (snapApp_preserves_snapInv app p0 w c.rect c.zone c.sw c.sh
        c.now c.setPosOk h)

/-- Claim C2: for a valid window that is not already snapped, any sequence of
one or more `snapApp` calls (any zones, viewports, timestamps, even failing
position-setter calls in between) followed by one successful `restoreApp`
puts the window back at exactly the geometry it had before the sequence. -/
theorem snap_restore_roundtrip (app : App) (w : World) (calls : List SnapCall)
    (hv : app.hasPosition ∧ app.hasSetPosition)
    (hwm : alistGet w.appStateMap app.oid = none)
    (_hne : calls ≠ []) :
    (restoreApp (applySnaps app w calls) app true).winPos app.oid
      = w.winPos app.oid := by
  have inv : SnapInv app (w.winPos app.oid) (applySnaps app w calls) :=
    applySnaps_snapInv app _ calls w (Or.inl ⟨hwm, rfl⟩)
  unfold restoreApp
  rw [if_neg (not_not_intro hv)]
  rcases inv with ⟨hnone, hpos⟩ | ⟨zi0, hsome⟩
  · simp [hnone, hpos]
  · simp [hsome]

/-- Witness for C2: snap `testApp` to the left half, then to the right half,
then restore; the window returns to `posA`. -/
theorem snap_restore_roundtrip_witness :
    (restoreApp
        (applySnaps testApp testWorld
          [{ rect := { x := 0, y := 0, w := 960, h := 1080 }, zone := zoneLeft,
             sw := 1920, sh := 1080, now := 1, setPosOk := true },
           { rect := { x := 960, y := 0, w := 960, h := 1080 },
             zone := { layoutId := "split-2", zoneId := "right" },
             sw := 1920, sh := 1080, now := 2, setPosOk := true }])
        testApp true).winPos testApp.oid
      = testWorld.winPos testApp.oid :=
  snap_restore_roundtrip testApp testWorld _ (by decide) (by decide)
    (List.cons_ne_nil _ _)

/-! ### Claim C3: the `restoreAll` summary -/

/-- Every iteration of the `restoreAll` loop lands in exactly one of the
three outcome counters. -/
theorem restoreOne_counts (env : RestoreEnv) (w : World) (st : WindowState) :
    (restoreOne env w st).1 + (restoreOne env w st).2.1
      + (restoreOne env w st).2.2.1 = 1 := by
  unfold restoreOne reopenBranch
  rcases hfo : env.findOpen st.appKey with _ | app <;>
    rcases ho : st.isOpen with _ | _ <;>
    rcases hd : st.documentInfo with _ | di <;>
    simp [hfo, ho, hd] <;> split_ifs <;> simp

/-- The loop's three counters sum to the number of processed records. -/
theorem restoreAllLoop_counts (env : RestoreEnv) (states : List WindowState) :
    ∀ w : World,
      (restoreAllLoop env states w).1 + (restoreAllLoop env states w).2.1
        + (restoreAllLoop env states w).2.2.1 = states.length := by
  induction states with
  | nil => intro w; simp [restoreAllLoop]
  | cons st rest ih =>
      intro w
      have h1 := restoreOne_counts env w st
      have h2 := ih (restoreOne env w st).2.2.2
      simp only [restoreAllLoop, List.length_cons]
      omega

/-- Claim C3: for every host environment and state, `restoreAll` returns a
summary with `restoredOpen + reopened + skipped = total`, `total` equal to
the number of stored `SnapRecord`s, and leaves the registry empty —
regardless of per-record geometry-apply or reopen failures. -/
theorem restoreAll_summary (env : RestoreEnv) (w : World) :
    (restoreAll env w).1.restoredOpen + (restoreAll env w).1.reopened
        + (restoreAll env w).1.skipped = (restoreAll env w).1.total ∧
    (restoreAll env w).1.total = getSnappedCount w.registry ∧
    (restoreAll env w).2.registry = [] := by
  have h := restoreAllLoop_counts env (getAllStatesArray w.registry) w
  refine ⟨?_, ?_, ?_⟩
  · simpa [restoreAll] using h
  · simp [restoreAll, getAllStatesArray, getSnappedCount]
  · simp [restoreAll, clearAll]

/-! ### Claim C4: the zone-rect calculation -/

/-- The layout set generated at a 1920×1080 viewport. -/
theorem layouts_at_1920_1080 : calculateAvailableLayouts 1920 1080
    = [fullLayout, split2Layout, split3Layout, rows2Layout, grid2x2Layout] := by
  norm_num [calculateAvailableLayouts, MIN_ZONE_WIDTH, MIN_ZONE_HEIGHT]

/-- Claim C4: `calculateZoneRect` returns `{x: col·colWidth, y: row·rowHeight,
w: colWidth·colSpan, h: rowHeight·rowSpan}` with `colWidth = width/columns`
and `rowHeight = height/rows` whenever layout and zone are found; returns
not-found for an unknown layout id (other than `"full"`) or an unknown zone
id; resolves `"full"` to the whole viewport even with no generated layout
set; and at 1920×1080 maps `split-2`'s zones to the two half-screen
rectangles. -/
theorem calculateZoneRect_spec :
    (∀ (layouts : List Layout) (lid zid : String) (sw sh : ℚ)
        (l : Layout) (z : Zone),
        layouts.find? (fun a => a.id == lid) = some l →
        l.zones.find? (fun a => a.id == zid) = some z →
        calculateZoneRect layouts lid zid sw sh
          = some { x := z.col * (sw / l.cols), y := z.row * (sh / l.rows),
                   w := (sw / l.cols) * effSpan z.colSpan,
                   h := (sh / l.rows) * effSpan z.rowSpan }) ∧
    (∀ (layouts : List Layout) (lid zid : String) (sw sh : ℚ),
        layouts.find? (fun a => a.id == lid) = none → lid ≠ "full" →
        calculateZoneRect layouts lid zid sw sh = none) ∧
    (∀ (layouts : List Layout) (lid zid : String) (sw sh : ℚ) (l : Layout),
        layouts.find? (fun a => a.id == lid) = some l →
        l.zones.find? (fun a => a.id == zid) = none →
        calculateZoneRect layouts lid zid sw sh = none) ∧
    (∀ (sw sh : ℚ), calculateZoneRect [] "full" "full" sw sh
        = some { x := 0, y := 0, w := sw, h := sh }) ∧
    calculateZoneRect (calculateAvailableLayouts 1920 1080) "split-2" "left"
        1920 1080 = some { x := 0, y := 0, w := 960, h := 1080 } ∧
    calculateZoneRect (calculateAvailableLayouts 1920 1080) "split-2" "right"
        1920 1080 = some { x := 960, y := 0, w := 960, h := 1080 } := by
  refine ⟨?_, ?_, ?_, ?_, ?_, ?_⟩
  · intro layouts lid zid sw sh l z h1 h2
    simp [calculateZoneRect, h1, h2, zoneRect]
  · intro layouts lid zid sw sh h1 h2
    simp [calculateZoneRect, h1, h2]
  · intro layouts lid zid sw sh l h1 h2
    simp [calculateZoneRect, h1, h2]
  · intro sw sh
    simp [calculateZoneRect]
  · rw [layouts_at_1920_1080]
    have hfind : List.find? (fun a => a.id == "split-2")
        [fullLayout, split2Layout, split3Layout, rows2Layout, grid2x2Layout]
        = some split2Layout := by decide
    have hz : List.find? (fun a => a.id == "left") split2Layout.zones
        = some (mkZone "left" 0 0) := by decide
    simp only [calculateZoneRect, hfind, hz]
    norm_num [zoneRect, effSpan, split2Layout, mkZone, Rect.mk.injEq]
  · rw [layouts_at_1920_1080]
    have hfind : List.find? (fun a => a.id == "split-2")
        [fullLayout, split2Layout, split3Layout, rows2Layout, grid2x2Layout]
        = some split2Layout := by decide
    have hz : List.find? (fun a => a.id == "right") split2Layout.zones
        = some (mkZone "right" 1 0) := by decide
    simp only [calculateZoneRect, hfind, hz]
    norm_num [zoneRect, effSpan, split2Layout, mkZone, Rect.mk.injEq]

/-- Witness for C4 at a concrete unknown layout id. -/
theorem calculateZoneRect_spec_witness :
    calculateZoneRect [] "nope" "left" 10 10 = none :=
  calculateZoneRect_spec.2.1 [] "nope" "left" 10 10 (by decide) (by decide)

/-! ### Claim C5: which layouts a viewport admits -/

/-- A conditional singleton's `any` reduces to the condition and the
predicate at its element. -/
theorem any_ite_nil {α : Type} {c : Prop} [Decidable c] (a : α) (p : α → Bool) :
    ((if c then [a] else []) : List α).any p = (decide c && p a) := by
  by_cases h : c <;> simp [h]

/-- The layout set generated at a 1200×1200 viewport. -/
theorem layouts_at_1200_1200 : calculateAvailableLayouts 1200 1200
    = [fullLayout, split2Layout, rows2Layout, grid2x2Layout] := by
  norm_num [calculateAvailableLayouts, MIN_ZONE_WIDTH, MIN_ZONE_HEIGHT]

/-- The layout set generated at a 2000×600 viewport. -/
theorem layouts_at_2000_600 : calculateAvailableLayouts 2000 600
    = [fullLayout, split2Layout, split3Layout, rows2Layout, grid2x2Layout] := by
  norm_num [calculateAvailableLayouts, MIN_ZONE_WIDTH, MIN_ZONE_HEIGHT]

/-- The layout set generated at a 2600×600 viewport. -/
theorem layouts_at_2600_600 : calculateAvailableLayouts 2600 600
    = [fullLayout, split2Layout, split3Layout, split4Layout, rows2Layout,
       grid2x2Layout] := by
  norm_num [calculateAvailableLayouts, MIN_ZONE_WIDTH, MIN_ZONE_HEIGHT]

/-- Claim C5 (counterexample): the claimed emission conditions fail on four
concrete viewports — at 1200×1200 the claim admits the 3-column layout
(`⌊1200/300⌋ ≥ 3`, no width gate claimed) and the 3-row layout
(`⌊1200/200⌋ ≥ 3` and `1200 ≥ 1080`), at 2000×600 the 4-column layout
(`⌊2000/300⌋ ≥ 4` and `2000 ≥ 1920`), and at 2600×600 the 6-column layout
(`⌊2600/300⌋ ≥ 6` and `2600 ≥ 2560`) — yet the generator emits none of
them. -/
theorem layout_gates_counterexample :
    ((⌊(1200 : ℚ) / 300⌋ ≥ 3) ∧
      ((calculateAvailableLayouts 1200 1200).any fun l => l.id == "split-3")
        = false) ∧
    ((⌊(1200 : ℚ) / 200⌋ ≥ 3 ∧ (1200 : ℚ) ≥ 1080) ∧
      ((calculateAvailableLayouts 1200 1200).any fun l => l.id == "rows-3")
        = false) ∧
    ((⌊(2000 : ℚ) / 300⌋ ≥ 4 ∧ (2000 : ℚ) ≥ 1920) ∧
      ((calculateAvailableLayouts 2000 600).any fun l => l.id == "split-4")
        = false) ∧
    ((⌊(2600 : ℚ) / 300⌋ ≥ 6 ∧ (2600 : ℚ) ≥ 2560) ∧
      ((calculateAvailableLayouts 2600 600).any fun l => l.id == "split-6")
        = false) := by
  refine ⟨⟨by norm_num, ?_⟩, ⟨by norm_num, ?_⟩, ⟨by norm_num, ?_⟩,
    ⟨by norm_num, ?_⟩⟩
  · rw [layouts_at_1200_1200]; decide
  · rw [layouts_at_1200_1200]; decide
  · rw [layouts_at_2000_600]; decide
  · rw [layouts_at_2600_600]; decide

/-- Claim C5 (amended): the generator emits the 2-column layout exactly when
`⌊width/300⌋ ≥ 2`; the 3-column exactly when additionally `width ≥ 1400`;
the 4-column exactly when `⌊width/300⌋ ≥ 4` and `width ≥ 2560`; the 6-column
exactly when `⌊width/300⌋ ≥ 6` and `width ≥ 3840`; the 2-row exactly when
`⌊height/200⌋ ≥ 2`; and the 3-row exactly when `⌊height/200⌋ ≥ 3` and
`height ≥ 1400`. -/
theorem layout_emission_gates (sw sh : ℚ) :
    (((calculateAvailableLayouts sw sh).any fun l => l.id == "split-2") = true
      ↔ ⌊sw / 300⌋ ≥ 2) ∧
    (((calculateAvailableLayouts sw sh).any fun l => l.id == "split-3") = true
      ↔ sw ≥ 1400 ∧ ⌊sw / 300⌋ ≥ 3) ∧
    (((calculateAvailableLayouts sw sh).any fun l => l.id == "split-4") = true
      ↔ sw ≥ 2560 ∧ ⌊sw / 300⌋ ≥ 4) ∧
    (((calculateAvailableLayouts sw sh).any fun l => l.id == "split-6") = true
      ↔ sw ≥ 3840 ∧ ⌊sw / 300⌋ ≥ 6) ∧
    (((calculateAvailableLayouts sw sh).any fun l => l.id == "rows-2") = true
      ↔ ⌊sh / 200⌋ ≥ 2) ∧
    (((calculateAvailableLayouts sw sh).any fun l => l.id == "rows-3") = true
      ↔ sh ≥ 1400 ∧ ⌊sh / 200⌋ ≥ 3) := by
  refine ⟨?_, ?_, ?_, ?_, ?_, ?_⟩ <;>
    simp [calculateAvailableLayouts, List.any_append, any_ite_nil,
      fullLayout, split2Layout, split3Layout, split4Layout, split6Layout,
      rows2Layout, grid2x2Layout, grid4x2Layout, rows3Layout, grid2x3Layout,
      grid3x3Layout, MIN_ZONE_WIDTH, MIN_ZONE_HEIGHT]

/-! ### Claim C6: every generated layout tiles the viewport exactly -/

/-- A point of the viewport lies in a rect (half-open on the far edges). -/
def inRect (r : Rect) (px py : ℚ) : Prop :=
  r.x ≤ px ∧ px < r.x + r.w ∧ r.y ≤ py ∧ py < r.y + r.h

/-- Two rects share no point. -/
def RectDisjoint (a b : Rect) : Prop :=
  ∀ px py : ℚ, ¬(inRect a px py ∧ inRect b px py)

/-- A layout tiles the `sw × sh` viewport exactly: its zone rectangles' areas
sum to the viewport area and no two of them overlap. -/
def TilesViewport (l : Layout) (sw sh : ℚ) : Prop :=
  (l.zones.map (fun z =>
      (zoneRect l.cols l.rows z sw sh).w
        * (zoneRect l.cols l.rows z sw sh).h)).sum = sw * sh ∧
  l.zones.Pairwise (fun z1 z2 =>
    RectDisjoint (zoneRect l.cols l.rows z1 sw sh)
      (zoneRect l.cols l.rows z2 sw sh))

/-- Uniform grid cells at distinct `(col, row)` indices are disjoint. -/
theorem cellsDisjoint {W H : ℚ} (hW : 0 ≤ W) (hH : 0 ≤ H) {c1 r1 c2 r2 : ℕ}
    (h : c1 ≠ c2 ∨ r1 ≠ r2) :
    RectDisjoint { x := c1 * W, y := r1 * H, w := W, h := H }
      { x := c2 * W, y := r2 * H, w := W, h := H } := by
  intro px py hc
  simp only [inRect] at hc
  obtain ⟨⟨a1, a2, a3, a4⟩, b1, b2, b3, b4⟩ := hc
  rcases h with h | h
  · rcases lt_or_gt_of_ne h with hlt | hlt
    · have hcc : ((c1 : ℚ) + 1) ≤ (c2 : ℚ) := by exact_mod_cast hlt
      have key : (c1 : ℚ) * W + W ≤ (c2 : ℚ) * W := by
        calc (c1 : ℚ) * W + W = ((c1 : ℚ) + 1) * W := by ring
          _ ≤ (c2 : ℚ) * W := mul_le_mul_of_nonneg_right hcc hW
      linarith
    · have hcc : ((c2 : ℚ) + 1) ≤ (c1 : ℚ) := by exact_mod_cast hlt
      have key : (c2 : ℚ) * W + W ≤ (c1 : ℚ) * W := by
        calc (c2 : ℚ) * W + W = ((c2 : ℚ) + 1) * W := by ring
          _ ≤ (c1 : ℚ) * W := mul_le_mul_of_nonneg_right hcc hW
      linarith
  · rcases lt_or_gt_of_ne h with hlt | hlt
    · have hcc : ((r1 : ℚ) + 1) ≤ (r2 : ℚ) := by exact_mod_cast hlt
      have key : (r1 : ℚ) * H + H ≤ (r2 : ℚ) * H := by
        calc (r1 : ℚ) * H + H = ((r1 : ℚ) + 1) * H := by ring
          _ ≤ (r2 : ℚ) * H := mul_le_mul_of_nonneg_right hcc hH
      linarith
    · have hcc : ((r2 : ℚ) + 1) ≤ (r1 : ℚ) := by exact_mod_cast hlt
      have key : (r2 : ℚ) * H + H ≤ (r1 : ℚ) * H := by
        calc (r2 : ℚ) * H + H = ((r2 : ℚ) + 1) * H := by ring
          _ ≤ (r1 : ℚ) * H := mul_le_mul_of_nonneg_right hcc hH
      linarith

/-- `zoneRect` of a span-free zone in closed form. -/
theorem zoneRect_mkZone (cols rows : ℕ) (i : String) (c r : ℕ) (sw sh : ℚ) :
    zoneRect cols rows (mkZone i c r) sw sh
      = { x := c * (sw / cols), y := r * (sh / rows),
          w := sw / cols, h := sh / rows } := by
  simp [zoneRect, mkZone, effSpan]

/-- Span-free zones of one grid at distinct cells get disjoint rects. -/
theorem zoneRect_disjoint {cols rows : ℕ} {sw sh : ℚ} (hsw : 0 ≤ sw)
    (hsh : 0 ≤ sh) {i1 i2 : String} {c1 r1 c2 r2 : ℕ}
    (h : c1 ≠ c2 ∨ r1 ≠ r2) :
    RectDisjoint (zoneRect cols rows (mkZone i1 c1 r1) sw sh)
      (zoneRect cols rows (mkZone i2 c2 r2) sw sh) := by
  rw [zoneRect_mkZone, zoneRect_mkZone]
  exact cellsDisjoint (div_nonneg hsw (Nat.cast_nonneg _))
    (div_nonneg hsh (Nat.cast_nonneg _)) h

/-- Membership in a conditional singleton. -/
theorem mem_ite_nil {α : Type} {c : Prop} [Decidable c] {a l : α} :
    (l ∈ (if c then [a] else [])) ↔ c ∧ l = a := by
  by_cases h : c <;> simp [h]

/-- Every generated layout is one of the eleven fixed layouts. -/
theorem mem_calculateAvailableLayouts {sw sh : ℚ} {l : Layout}
    (hl : l ∈ calculateAvailableLayouts sw sh) :
    l = fullLayout ∨ l = split2Layout ∨ l = split3Layout ∨ l = split4Layout ∨
    l = split6Layout ∨ l = rows2Layout ∨ l = grid2x2Layout ∨
    l = grid4x2Layout ∨ l = rows3Layout ∨ l = grid2x3Layout ∨
    l = grid3x3Layout := by
  simp only [calculateAvailableLayouts, List.mem_append, List.mem_singleton,
    mem_ite_nil] at hl
  tauto

/-- The full-screen layout tiles any viewport. -/
theorem tilesViewport_full (sw sh : ℚ) (_hsw : 0 ≤ sw) (_hsh : 0 ≤ sh) :
    TilesViewport fullLayout sw sh := by
  refine ⟨?_, ?_⟩
  · simp only [fullLayout, List.map_cons, List.map_nil, List.sum_cons,
      List.sum_nil, zoneRect_mkZone]
    push_cast
    ring
  · simp [fullLayout, List.pairwise_cons]

/-- The 2-column layout tiles any viewport. -/
theorem tilesViewport_split2 (sw sh : ℚ) (hsw : 0 ≤ sw) (hsh : 0 ≤ sh) :
    TilesViewport split2Layout sw sh := by
  refine ⟨?_, ?_⟩
  · simp only [split2Layout, List.map_cons, List.map_nil, List.sum_cons,
      List.sum_nil, zoneRect_mkZone]
    push_cast
    ring
  · simp [split2Layout, List.pairwise_cons]
    and_intros <;> exact zoneRect_disjoint hsw hsh (by decide)

/-- The 3-column layout tiles any viewport. -/
theorem tilesViewport_split3 (sw sh : ℚ) (hsw : 0 ≤ sw) (hsh : 0 ≤ sh) :
    TilesViewport split3Layout sw sh := by
  refine ⟨?_, ?_⟩
  · simp only [split3Layout, List.map_cons, List.map_nil, List.sum_cons,
      List.sum_nil, zoneRect_mkZone]
    push_cast
    ring
  · simp [split3Layout, List.pairwise_cons]
    and_intros <;> exact zoneRect_disjoint hsw hsh (by decide)

/-- The 4-column layout tiles any viewport. -/
theorem tilesViewport_split4 (sw sh : ℚ) (hsw : 0 ≤ sw) (hsh : 0 ≤ sh) :
    TilesViewport split4Layout sw sh := by
  refine ⟨?_, ?_⟩
  · simp only [split4Layout, List.map_cons, List.map_nil, List.sum_cons,
      List.sum_nil, zoneRect_mkZone]
    push_cast
    ring
  · simp [split4Layout, List.pairwise_cons]
    and_intros <;> exact zoneRect_disjoint hsw hsh (by decide)

/-- The 6-column layout tiles any viewport. -/
theorem tilesViewport_split6 (sw sh : ℚ) (hsw : 0 ≤ sw) (hsh : 0 ≤ sh) :
    TilesViewport split6Layout sw sh := by
  refine ⟨?_, ?_⟩
  · simp only [split6Layout, List.map_cons, List.map_nil, List.sum_cons,
      List.sum_nil, zoneRect_mkZone]
    push_cast
    ring
  · simp [split6Layout, List.pairwise_cons]
    and_intros <;> exact zoneRect_disjoint hsw hsh (by decide)

/-- The 2-row layout tiles any viewport. -/
theorem tilesViewport_rows2 (sw sh : ℚ) (hsw : 0 ≤ sw) (hsh : 0 ≤ sh) :
    TilesViewport rows2Layout sw sh := by
  refine ⟨?_, ?_⟩
  · simp only [rows2Layout, List.map_cons, List.map_nil, List.sum_cons,
      List.sum_nil, zoneRect_mkZone]
    push_cast
    ring
  · simp [rows2Layout, List.pairwise_cons]
    and_intros <;> exact zoneRect_disjoint hsw hsh (by decide)

/-- The 2×2 grid tiles any viewport. -/
theorem tilesViewport_grid2x2 (sw sh : ℚ) (hsw : 0 ≤ sw) (hsh : 0 ≤ sh) :
    TilesViewport grid2x2Layout sw sh := by
  refine ⟨?_, ?_⟩
  · simp only [grid2x2Layout, List.map_cons, List.map_nil, List.sum_cons,
      List.sum_nil, zoneRect_mkZone]
    push_cast
    ring
  · simp [grid2x2Layout, List.pairwise_cons]
    and_intros <;> exact zoneRect_disjoint hsw hsh (by decide)

/-- The 4×2 grid tiles any viewport. -/
theorem tilesViewport_grid4x2 (sw sh : ℚ) (hsw : 0 ≤ sw) (hsh : 0 ≤ sh) :
    TilesViewport grid4x2Layout sw sh := by
  refine ⟨?_, ?_⟩
  · simp only [grid4x2Layout, List.map_cons, List.map_nil, List.sum_cons,
      List.sum_nil, zoneRect_mkZone]
    push_cast
    ring
  · simp [grid4x2Layout, List.pairwise_cons]
    and_intros <;> exact zoneRect_disjoint hsw hsh (by decide)

/-- The 3-row layout tiles any viewport. -/
theorem tilesViewport_rows3 (sw sh : ℚ) (hsw : 0 ≤ sw) (hsh : 0 ≤ sh) :
    TilesViewport rows3Layout sw sh := by
  refine ⟨?_, ?_⟩
  · simp only [rows3Layout, List.map_cons, List.map_nil, List.sum_cons,
      List.sum_nil, zoneRect_mkZone]
    push_cast
    ring
  · simp [rows3Layout, List.pairwise_cons]
    and_intros <;> exact zoneRect_disjoint hsw hsh (by decide)

/-- The 2×3 grid tiles any viewport. -/
theorem tilesViewport_grid2x3 (sw sh : ℚ) (hsw : 0 ≤ sw) (hsh : 0 ≤ sh) :
    TilesViewport grid2x3Layout sw sh := by
  refine ⟨?_, ?_⟩
  · simp only [grid2x3Layout, List.map_cons, List.map_nil, List.sum_cons,
      List.sum_nil, zoneRect_mkZone]
    push_cast
    ring
  · simp [grid2x3Layout, List.pairwise_cons]
    and_intros <;> exact zoneRect_disjoint hsw hsh (by decide)

/-- The 3×3 grid tiles any viewport. -/
theorem tilesViewport_grid3x3 (sw sh : ℚ) (hsw : 0 ≤ sw) (hsh : 0 ≤ sh) :
    TilesViewport grid3x3Layout sw sh := by
  refine ⟨?_, ?_⟩
  · simp only [grid3x3Layout, List.map_cons, List.map_nil, List.sum_cons,
      List.sum_nil, zoneRect_mkZone]
    push_cast
    ring
  · simp [grid3x3Layout, List.pairwise_cons]
    and_intros <;> exact zoneRect_disjoint hsw hsh (by decide)

/-- Claim C6: on any positive viewport, every layout the generator emits
tiles the viewport exactly — the zone areas computed by the rect calculation
sum to `width · height` and no two zones of the layout overlap. -/
theorem generated_layouts_tile_viewport (sw sh : ℚ) (hsw : 0 < sw)
    (hsh : 0 < sh) :
    ∀ l ∈ calculateAvailableLayouts sw sh, TilesViewport l sw sh := by
  intro l hl
  rcases mem_calculateAvailableLayouts hl with h|h|h|h|h|h|h|h|h|h|h <;>
    subst h
  exacts [tilesViewport_full sw sh hsw.le hsh.le,
    tilesViewport_split2 sw sh hsw.le hsh.le,
    tilesViewport_split3 sw sh hsw.le hsh.le,
    tilesViewport_split4 sw sh hsw.le hsh.le,
    tilesViewport_split6 sw sh hsw.le hsh.le,
    tilesViewport_rows2 sw sh hsw.le hsh.le,
    tilesViewport_grid2x2 sw sh hsw.le hsh.le,
    tilesViewport_grid4x2 sw sh hsw.le hsh.le,
    tilesViewport_rows3 sw sh hsw.le hsh.le,
    tilesViewport_grid2x3 sw sh hsw.le hsh.le,
    tilesViewport_grid3x3 sw sh hsw.le hsh.le]

/-- Witness for C6 at a 1920×1080 viewport and its generated 2×2 grid. -/
theorem generated_layouts_tile_viewport_witness :
    TilesViewport grid2x2Layout 1920 1080 :=
  generated_layouts_tile_viewport 1920 1080 (by norm_num) (by norm_num)
    grid2x2Layout (by rw [layouts_at_1920_1080]; decide)

/-! ### Claim C9: one drag gesture triggers `show` exactly once -/

/-- While the overlay is already active, any event of a top-edge trace — a
pointer-move sample below 10px or any poll tick — changes nothing: `show` is
guarded by `activeApp`, moves at `y < 10` never reach the hide branch, and
polls never hide. -/
theorem dragStep_active {s : DragState} {w : World} {a : ℕ} (ev : DragEvent)
    (hs : s.draggingApp.isSome) (hd : s.isDragging = true)
    (hw : w.activeApp = some a)
    (hev : match ev with | .move e _ => e.y < 10 | .poll _ _ => True) :
    dragStep (s, w) ev = (s, w) := by
  obtain ⟨da, idg, sx, sy⟩ := s
  obtain ⟨oid, hoid⟩ := Option.isSome_iff_exists.mp hs
  replace hd : idg = true := hd
  subst hoid hd
  cases ev with
  | move e zoneAt =>
      have hy : e.y < 10 := hev
      simp [dragStep, onPointerMove, hy, hw]
  | poll t rs =>
      simp only [dragStep, adaptivePollStep]
      simp [hw]

/-- A whole top-edge trace is a no-op once the overlay is active. -/
theorem processDragEvents_active (events : List DragEvent) :
    ∀ (s : DragState) (w : World) (a : ℕ), s.draggingApp.isSome →
      s.isDragging = true → w.activeApp = some a → MovesBelowTop events →
      processDragEvents s w events = (s, w) := by
  induction events with
  | nil => intro s w a _ _ _ _; rfl
  | cons ev rest ih =>
      intro s w a hs hd hw hbelow
      have hstep : dragStep (s, w) ev = (s, w) :=
        dragStep_active ev hs hd hw (hbelow ev (List.mem_cons_self _ _))
      have hbt : MovesBelowTop rest :=
        fun e h => hbelow e (List.mem_cons_of_mem _ h)
      unfold processDragEvents at *
      rw [List.foldl_cons, hstep]
      exact ih s w a hs hd hw hbt

/-- Claim C9: during one drag gesture (a tracked window, past the 3px
threshold) starting with no active overlay, a trace of pointer-move samples
whose Y stays below 10px — with arbitrary adaptive-poll ticks interleaved —
containing at least one sample triggers exactly one `show`: the
overlay-show counter ends exactly one above where it started. -/
theorem drag_show_exactly_once (s : DragState) (w : World)
    (events : List DragEvent) (hd1 : s.draggingApp.isSome)
    (hd2 : s.isDragging = true) (hw : w.activeApp = none)
    (hbelow : MovesBelowTop events) (hmove : hasMove events = true) :
    ((processDragEvents s w events).2).metrics.overlayShowCount
      = w.metrics.overlayShowCount + 1 := by
  obtain ⟨da, idg, sx, sy⟩ := s
  obtain ⟨oid, hoid⟩ := Option.isSome_iff_exists.mp hd1
  replace hd2 : idg = true := hd2
  subst hoid hd2
  induction events with
  | nil => simp [hasMove] at hmove
  | cons ev rest ih =>
      have hbt : MovesBelowTop rest :=
        fun e h => hbelow e (List.mem_cons_of_mem _ h)
      cases ev with
      | move e zoneAt =>
          have hy : e.y < 10 := hbelow _ (List.mem_cons_self _ _)
          have hstep : dragStep (⟨some oid, true, sx, sy⟩, w) (.move e zoneAt)
              = (⟨some oid, true, sx, sy⟩, showOverlay w oid) := by
            simp [dragStep, onPointerMove, hy, hw]
          have hrest := processDragEvents_active rest ⟨some oid, true, sx, sy⟩
            (showOverlay w oid) oid rfl rfl (by simp [showOverlay]) hbt
          unfold processDragEvents at hrest ⊢
          rw [List.foldl_cons, hstep, hrest]
          simp [showOverlay, recordOverlayShow]
      | poll t rs =>
          by_cases htrig : rs = false ∧ t < 10
          · have hstep : dragStep (⟨some oid, true, sx, sy⟩, w) (.poll t rs)
                = (⟨some oid, true, sx, sy⟩, showOverlay w oid) := by
              simp [dragStep, adaptivePollStep, htrig.1, htrig.2, hw]
            have hrest := processDragEvents_active rest ⟨some oid, true, sx, sy⟩
              (showOverlay w oid) oid rfl rfl (by simp [showOverlay]) hbt
            unfold processDragEvents at hrest ⊢
            rw [List.foldl_cons, hstep, hrest]
            simp [showOverlay, recordOverlayShow]
          · have hstep : dragStep (⟨some oid, true, sx, sy⟩, w) (.poll t rs)
                = (⟨some oid, true, sx, sy⟩, w) := by
              rcases Bool.eq_false_or_eq_true rs with hrs | hrs
              · simp [dragStep, adaptivePollStep, hrs]
              · have ht : ¬t < 10 := fun hlt => htrig ⟨hrs, hlt⟩
                simp [dragStep, adaptivePollStep, hrs, ht]
            have hmv : hasMove rest = true := by
              simpa [hasMove] using hmove
            unfold processDragEvents at ih ⊢
            rw [List.foldl_cons, hstep]
            exact ih hbt hmv

/-- Witness for C9: two near-top samples and one poll tick from a fresh
overlay state bump the show counter exactly once. -/
theorem drag_show_exactly_once_witness :
    ((processDragEvents
        { draggingApp := some 0, isDragging := true, startX := 0, startY := 0 }
        testWorld
        [DragEvent.move { x := 500, y := 5 } none,
         DragEvent.move { x := 500, y := 4 } none,
         DragEvent.poll 3 false]).2).metrics.overlayShowCount
      = testWorld.metrics.overlayShowCount + 1 :=
  drag_show_exactly_once _ testWorld _ rfl rfl rfl
    (by intro ev h; fin_cases h <;> norm_num) rfl

end WindowMaximizer
